import Mathlib

/-!
Verification development for the wpengine-mcp-server repository.

The repository is a TypeScript MCP (Model Context Protocol) server that
exposes the WP Engine management REST API as callable tools.  This file
gives a shallow embedding of its command-dispatch and validation layer:

* `src/utils/validation.ts` — the zod input schemas and `validateInput`,
  `validateEnvironmentConfig`;
* `src/services/wpengine-api.ts` — the API client's `handleApiError`
  translation and the per-method error wrapping;
* `src/index.ts` — the `CallToolRequestSchema` handler that validates
  arguments, calls the client, and builds the `{success, data, message,
  error}` envelope (plus the protocol-level `isError` flag);
* the legacy variant of the validation and client modules that also ships
  in the repository (API-token based); its definitions live in the
  `Legacy` namespace.

zod semantics are embedded for exactly the combinators the source uses:
`z.object` over `z.string` (min/max/regex), `z.number` (int/min/max),
`z.boolean` and `z.enum`, with `.optional()` and `.default(...)`.
Objects are non-strict (unknown keys ignored), all issues are collected,
a missing required key yields zod's default message "Required", and the
output object contains declared keys only (defaults filled in).
-/

/-- A JSON-ish primitive value as it appears in a tool-call argument bag.
Numbers are modelled as integers (every schema in the source constrains
numbers with `.int()`). -/
inductive JValue where
  | str (s : String)
  | num (n : Int)
  | bool (b : Bool)
deriving DecidableEq, Repr

/-- An untyped argument bag / JSON object: field name to value, first
binding wins on lookup. -/
abbrev RawArgs := List (String × JValue)

/-- Field lookup in an argument bag (JS property access). -/
def lookupArg (args : RawArgs) (f : String) : Option JValue :=
  match args with
  | [] => none
  | (k, v) :: rest => if k = f then some v else lookupArg rest f

/-- Hex digit of either case: embedding of the character class `[0-9a-f]`
under the regex's `/i` (case-insensitive) flag, from
`src/utils/validation.ts` line 42. -/
def isHexDigitCI (c : Char) : Bool :=
  c.isDigit || ('a' ≤ c && c ≤ 'f') || ('A' ≤ c && c ≤ 'F')

/-- Uppercase-only hex digit, used to state the claim about uppercase
UUID inputs. -/
def isUpperHexDigit (c : Char) : Bool :=
  c.isDigit || ('A' ≤ c && c ≤ 'F')

/-- Split a character list at every `'-'` (the groups of the UUID
pattern; hex digits never equal `'-'`, so this is equivalent to the
anchored regex's group structure). -/
def splitDash : List Char → List (List Char)
  | [] => [[]]
  | c :: rest =>
    let r := splitDash rest
    if c = '-' then [] :: r
    else
      match r with
      | g :: gs => (c :: g) :: gs
      | [] => [[c]]

/-- Group shape of `^X{8}-X{4}-X{4}-X{4}-X{12}$` for a digit class. -/
def uuidGroupsOk (hex : Char → Bool) (parts : List (List Char)) : Bool :=
  match parts with
  | [a, b, c, d, e] =>
    a.length == 8 && b.length == 4 && c.length == 4 && d.length == 4 &&
    e.length == 12 && a.all hex && b.all hex && c.all hex && d.all hex &&
    e.all hex
  | _ => false

/-- Embedding of `uuidPattern = /^[0-9a-f]{8}-[0-9a-f]{4}-[0-9a-f]{4}-[0-9a-f]{4}-[0-9a-f]{12}$/i`
(`src/utils/validation.ts` line 42): case-insensitive thanks to the `/i`
flag. -/
def uuidMatch (s : String) : Bool :=
  uuidGroupsOk isHexDigitCI (splitDash s.data)

/-- A UUID-shaped string written with uppercase hex digits only (the
shape the C10 claim quantifies over). -/
def upperHexUuidShaped (s : String) : Bool :=
  uuidGroupsOk isUpperHexDigit (splitDash s.data)

/-- The regex patterns the embedded schemas use. -/
inductive RePattern where
  | uuid
deriving DecidableEq, Repr

def matchRePattern : RePattern → String → Bool
  | .uuid, s => uuidMatch s

/-- String checks of the zod subset: `.min(n, msg?)`, `.max(n, msg?)`,
`.regex(pattern, msg)`. -/
inductive StrCheck where
  | minLen (n : Nat) (msg : Option String)
  | maxLen (n : Nat) (msg : Option String)
  | regex (p : RePattern) (msg : String)
deriving DecidableEq, Repr

/-- Number checks of the zod subset: `.int()`, `.min(n)`, `.max(n)`. -/
inductive NumCheck where
  | int
  | nmin (n : Int)
  | nmax (n : Int)
deriving DecidableEq, Repr

/-- Field value schema (zod subset actually used by the source). -/
inductive ZSchema where
  | zstring (checks : List StrCheck)
  | znumber (checks : List NumCheck)
  | zbool
  | zenum (values : List String)
deriving DecidableEq, Repr

/-- One declared object field: its value schema, whether it is
`.optional()`, and its `.default(...)` value if any. -/
structure FieldSpec where
  schema : ZSchema
  optional : Bool
  defaultVal : Option JValue
deriving DecidableEq, Repr

/-- An object schema: the declared fields in declaration order. -/
abbrev ObjectSchema := List (String × FieldSpec)

/-- One zod issue, reduced to what `validateInput` consumes:
`issue.path` and `issue.message`. -/
structure Issue where
  path : List String
  msg : String
deriving DecidableEq, Repr

/-- Run one string check, returning the issue message on failure
(zod default texts when no custom message was given). -/
def runStrCheck (s : String) : StrCheck → Option String
  | .minLen n msg =>
    if s.length < n then
      some (msg.getD ("String must contain at least " ++ toString n ++ " character(s)"))
    else none
  | .maxLen n msg =>
    if n < s.length then
      some (msg.getD ("String must contain at most " ++ toString n ++ " character(s)"))
    else none
  | .regex p msg => if matchRePattern p s then none else some msg

/-- Run one number check.  `.int()` always passes here because numbers
are embedded as integers. -/
def runNumCheck (n : Int) : NumCheck → Option String
  | .int => none
  | .nmin m =>
    if n < m then some ("Number must be greater than or equal to " ++ toString m)
    else none
  | .nmax m =>
    if m < n then some ("Number must be less than or equal to " ++ toString m)
    else none

/-- JSON type name as zod reports it in `invalid_type` issues. -/
def typeName : JValue → String
  | .str _ => "string"
  | .num _ => "number"
  | .bool _ => "boolean"

/-- zod's enum failure message. -/
def enumMsg (values : List String) (got : String) : String :=
  "Invalid enum value. Expected " ++
    String.intercalate " | " (values.map (fun v => "\x27" ++ v ++ "\x27")) ++
    ", received \x27" ++ got ++ "\x27"

/-- Check a present value against its field schema, producing the list
of issues (empty iff the value conforms; no coercion is performed). -/
def checkValue (sch : ZSchema) (path : List String) (v : JValue) : List Issue :=
  match sch, v with
  | .zstring checks, .str s => (checks.filterMap (runStrCheck s)).map (fun m => ⟨path, m⟩)
  | .zstring _, v => [⟨path, "Expected string, received " ++ typeName v⟩]
  | .znumber checks, .num n => (checks.filterMap (runNumCheck n)).map (fun m => ⟨path, m⟩)
  | .znumber _, v => [⟨path, "Expected number, received " ++ typeName v⟩]
  | .zbool, .bool _ => []
  | .zbool, v => [⟨path, "Expected boolean, received " ++ typeName v⟩]
  | .zenum values, .str s => if values.contains s then [] else [⟨path, enumMsg values s⟩]
  | .zenum values, v => [⟨path, enumMsg values (typeName v)⟩]

/-- Walk the declared fields of an object schema over a raw bag,
collecting (issues, output bindings), both in declaration order.  This
is `z.object(...).safeParse`: missing required keys yield a "Required"
issue, missing optional keys are filled from their default or omitted,
present keys are checked (never coerced), and undeclared keys of the
input are ignored entirely. -/
def parseFields : ObjectSchema → RawArgs → List Issue × RawArgs
  | [], _ => ([], [])
  | (f, spec) :: rest, args =>
    let r := parseFields rest args
    match lookupArg args f with
    | none =>
      if spec.optional then
        match spec.defaultVal with
        | some d => (r.1, (f, d) :: r.2)
        | none => r
      else (⟨[f], "Required"⟩ :: r.1, r.2)
    | some v =>
      (checkValue spec.schema [f] v ++ r.1, (f, v) :: r.2)

/-- `schema.safeParse(input)`: success with the parsed object, or the
collected issue list. -/
def parseObject (os : ObjectSchema) (args : RawArgs) : Except (List Issue) RawArgs :=
  let r := parseFields os args
  if r.1.isEmpty then .ok r.2 else .error r.1

/-- Format one issue the way `validateInput` does:
`issue.path.join('.') + ': ' + issue.message`. -/
def issueText (i : Issue) : String :=
  String.intercalate "." i.path ++ ": " ++ i.msg

/-- `validateInput` from `src/utils/validation.ts` lines 30–39: on
failure, throws `Invalid input: ` followed by the issues joined with
`", "`. -/
def validateInput (os : ObjectSchema) (args : RawArgs) : Except String RawArgs :=
  match parseObject os args with
  | .ok out => .ok out
  | .error issues =>
    .error ("Invalid input: " ++ String.intercalate ", " (issues.map issueText))

/-- Shorthand for a required UUID-pattern identifier field, as every
`*_id` field of `src/utils/validation.ts` declares it. -/
def reqUuid (f : String) : String × FieldSpec :=
  (f, ⟨.zstring [.regex .uuid ("Invalid UUID format for " ++ f)], false, none⟩)

/-- Optional UUID-pattern identifier field. -/
def optUuid (f : String) : String × FieldSpec :=
  (f, ⟨.zstring [.regex .uuid ("Invalid UUID format for " ++ f)], true, none⟩)

-- Schemas from src/utils/validation.ts (current module, the one the
-- server's handler imports).

/-- `listAccountsSchema` (lines 62–65). -/
def listAccountsSchema : ObjectSchema :=
  [("limit", ⟨.znumber [.int, .nmin 1, .nmax 100], true, some (.num 25)⟩),
   ("offset", ⟨.znumber [.int, .nmin 0], true, some (.num 0)⟩)]

/-- `getAccountSchema` (lines 67–69). -/
def getAccountSchema : ObjectSchema := [reqUuid "account_id"]

/-- `listSitesSchema` (lines 73–77). -/
def listSitesSchema : ObjectSchema :=
  [("limit", ⟨.znumber [.int, .nmin 1, .nmax 100], true, some (.num 25)⟩),
   ("offset", ⟨.znumber [.int, .nmin 0], true, some (.num 0)⟩),
   optUuid "account_id"]

/-- `getSiteSchema` (lines 79–81). -/
def getSiteSchema : ObjectSchema := [reqUuid "site_id"]

/-- `createSiteSchema` (lines 83–86). -/
def createSiteSchema : ObjectSchema :=
  [("name", ⟨.zstring [.minLen 3 none, .maxLen 50 none], false, none⟩),
   reqUuid "account_id"]

/-- `updateSiteSchema` (lines 88–91). -/
def updateSiteSchema : ObjectSchema :=
  [reqUuid "site_id",
   ("name", ⟨.zstring [.minLen 3 none, .maxLen 50 none], true, none⟩)]

/-- `deleteSiteSchema` (lines 93–95). -/
def deleteSiteSchema : ObjectSchema := [reqUuid "site_id"]

/-- `getInstallSchema` (lines 105–107). -/
def getInstallSchema : ObjectSchema := [reqUuid "install_id"]

/-- `getDomainSchema` (lines 134–137). -/
def getDomainSchema : ObjectSchema := [reqUuid "install_id", reqUuid "domain_id"]

/-- `getBackupSchema` (lines 167–170). -/
def getBackupSchema : ObjectSchema := [reqUuid "install_id", reqUuid "backup_id"]

/-- `getAccountUserSchema` (lines 185–188). -/
def getAccountUserSchema : ObjectSchema := [reqUuid "account_id", reqUuid "user_id"]

/-- `deleteSshKeySchema` (lines 222–224). -/
def deleteSshKeySchema : ObjectSchema := [reqUuid "ssh_key_id"]

/-- `getSiteInfoSchema = getSiteSchema` (line 227, legacy-compat alias;
this is the schema the handler's `get_site_info` case uses). -/
def getSiteInfoSchema : ObjectSchema := getSiteSchema

-- ===================================================================
-- API client: configuration, error translation, and the tool handler
-- ===================================================================

/-- `WPEngineAuthConfig` (src/types/wpengine.ts lines 217–222) plus the
timeout; the credentials the C9 claim is about. -/
structure WPEngineAuthConfig where
  username : String
  password : String
  baseUrl : String
  timeout : Int
deriving DecidableEq, Repr

/-- What the axios error object exposes to `handleApiError`:
`error.response?.status`, the backend body's `message` field
(`error.response?.data as WPEngineApiError`), and `error.message`.
A transport-level failure has no response, hence no status and no body. -/
structure ApiErrorInfo where
  status : Option Nat
  bodyMessage : Option String
  message : String
deriving DecidableEq, Repr

/-- `error.response?.status && error.response.status >= 500`. -/
def isServerErrStatus : Option Nat → Bool
  | some s => 500 ≤ s
  | none => false

/-- `WPEngineApiClient.handleApiError` (src/services/wpengine-api.ts
lines 78–105).  The method is declared on the class, so the
configuration is in scope (`this.config`); the body never reads it. -/
def handleApiError (cfg : WPEngineAuthConfig) (e : ApiErrorInfo) : String :=
  match cfg with
  | _ =>
    if e.status = some 401 then
      "WP Engine API authentication failed. Please check your username and password from the API Access page."
    else if e.status = some 403 then
      "WP Engine API access forbidden. Please check your permissions."
    else if e.status = some 404 then
      "WP Engine API endpoint not found or resource does not exist."
    else if e.status = some 429 then
      "WP Engine API rate limit exceeded. Please try again later."
    else if isServerErrStatus e.status then
      "WP Engine API server error. Please try again later."
    else
      match e.bodyMessage with
      | some m => "WP Engine API error: " ++ m
      | none => "WP Engine API error: " ++ e.message

/-- The backend methods the handler (src/index.ts) can invoke on the
client, with the arguments it forwards. -/
inductive BackendCall where
  | listSites
  | getSite (siteId : String)
  | createSite (name accountId : String)
  | updateSite (siteId : String) (upd : RawArgs)
  | deleteSite (siteId : String)
deriving DecidableEq, Repr

/-- Result of one outbound HTTP call: a success payload (a JSON object,
abstracted to named primitive fields), an HTTP error status with the
optional `message` field of the error body, or a transport error. -/
inductive BackendOutcome where
  | ok (payload : RawArgs)
  | httpErr (status : Nat) (body : Option String)
  | transportErr (msg : String)
deriving DecidableEq, Repr

/-- The `AxiosError` view of a failed outcome (axios sets
`error.message` to `Request failed with status code N` for HTTP errors). -/
def errInfo : BackendOutcome → ApiErrorInfo
  | .ok _ => ⟨none, none, ""⟩
  | .httpErr s b => ⟨some s, b, "Request failed with status code " ++ toString s⟩
  | .transportErr m => ⟨none, none, m⟩

/-- The envelope serialized into the response text block:
`{success, data?, message?, error?}`.  `Option` presence mirrors JSON
field presence. -/
structure Envelope where
  success : Bool
  data : Option RawArgs
  message : Option String
  error : Option String
deriving DecidableEq, Repr

/-- The protocol-level tool result: the envelope in the text content
block, plus the `isError` marker flag (absent means `false`). -/
structure ToolResult where
  envelope : Envelope
  isError : Bool
deriving DecidableEq, Repr

/-- JS template-string access `obj.field` for the string fields the
handler reads off validated arguments and payloads (`undefined` when
missing, as a template literal renders it). -/
def strField (obj : RawArgs) (f : String) : String :=
  match lookupArg obj f with
  | some (.str s) => s
  | some (.num n) => toString n
  | some (.bool b) => toString b
  | none => "undefined"

/-- `const {site_id, ...updateData} = validatedInput` — everything but
one field. -/
def removeArg (obj : RawArgs) (f : String) : RawArgs :=
  obj.filter (fun p => p.1 != f)

/-- One client method call as the handler performs it: on success build
the success envelope from the payload; on failure the method's `catch`
wraps `handleApiError`'s message with the method's `Failed to ...: `
text and rethrows. -/
def clientCall (cfg : WPEngineAuthConfig) (backend : BackendCall → BackendOutcome)
    (c : BackendCall) (failText : String) (onOk : RawArgs → Envelope) :
    Except String Envelope × List BackendCall :=
  match backend c with
  | .ok p => (.ok (onOk p), [c])
  | o => (.error (failText ++ handleApiError cfg (errInfo o)), [c])

/-- The body of the `CallToolRequestSchema` handler (src/index.ts lines
176–276) before its outer `catch`: validate, dispatch to the client,
build the success envelope; any thrown error is the `Except.error`
message.  The second component records the backend calls made. -/
def runTool (cfg : WPEngineAuthConfig) (backend : BackendCall → BackendOutcome)
    (name : String) (args : RawArgs) : Except String Envelope × List BackendCall :=
  match name with
  | "list_sites" =>
    match validateInput listSitesSchema args with
    | .error m => (.error m, [])
    | .ok _ =>
      clientCall cfg backend .listSites "Failed to list sites: "
        (fun p => ⟨true, some p, none, none⟩)
  | "get_site_info" =>
    match validateInput getSiteInfoSchema args with
    | .error m => (.error m, [])
    | .ok out =>
      clientCall cfg backend (.getSite (strField out "site_id"))
        "Failed to get site info: " (fun p => ⟨true, some p, none, none⟩)
  | "create_site" =>
    match validateInput createSiteSchema args with
    | .error m => (.error m, [])
    | .ok out =>
      clientCall cfg backend (.createSite (strField out "name") (strField out "account_id"))
        "Failed to create site: "
        (fun p => ⟨true, some p,
          some ("Site \x27" ++ strField p "name" ++ "\x27 created successfully"), none⟩)
  | "update_site" =>
    match validateInput updateSiteSchema args with
    | .error m => (.error m, [])
    | .ok out =>
      clientCall cfg backend (.updateSite (strField out "site_id") (removeArg out "site_id"))
        "Failed to update site: "
        (fun p => ⟨true, some p,
          some ("Site \x27" ++ strField p "name" ++ "\x27 updated successfully"), none⟩)
  | "delete_site" =>
    match validateInput deleteSiteSchema args with
    | .error m => (.error m, [])
    | .ok out =>
      clientCall cfg backend (.deleteSite (strField out "site_id"))
        "Failed to delete site: "
        (fun _ => ⟨true, none,
          some ("Site with ID \x27" ++ strField out "site_id" ++ "\x27 deleted successfully"), none⟩)
  | other => (.error ("Unknown tool: " ++ other), [])

/-- The full handler including its `catch` block (src/index.ts lines
263–275): a thrown error becomes `{success: false, error: message}`
with the protocol-level `isError: true`. -/
def callTool (cfg : WPEngineAuthConfig) (backend : BackendCall → BackendOutcome)
    (name : String) (args : RawArgs) : ToolResult × List BackendCall :=
  match runTool cfg backend name args with
  | (.ok e, calls) => (⟨e, false⟩, calls)
  | (.error m, calls) => (⟨⟨false, none, none, some m⟩, true⟩, calls)

/-- The schema the handler validates each tool's arguments against
(mirrors the five `validateInput` call sites of src/index.ts). -/
def toolSchema : String → Option ObjectSchema
  | "list_sites" => some listSitesSchema
  | "get_site_info" => some getSiteInfoSchema
  | "create_site" => some createSiteSchema
  | "update_site" => some updateSiteSchema
  | "delete_site" => some deleteSiteSchema
  | _ => none

-- ===================================================================
-- Startup environment validation
-- ===================================================================

/-- The environment variables the two module variants read. -/
structure EnvVars where
  wpUsername : Option String
  wpPassword : Option String
  wpAuthTokenId : Option String
  wpAuthPassword : Option String
  wpApiToken : Option String
  wpApiBaseUrl : Option String
  wpRequestTimeout : Option String
deriving DecidableEq, Repr

/-- JS falsiness of `process.env.X`: missing or the empty string. -/
def strFalsy : Option String → Bool
  | none => true
  | some s => s.isEmpty

/-- `s.startsWith(p)` on the underlying characters. -/
def strStartsWith (p s : String) : Bool :=
  p.data.isPrefixOf s.data

/-- Leading-digits `parseInt` (none models `NaN`); enough for the
`isNaN(parseInt(timeout))` startup check. -/
def jsParseInt (s : String) : Option Nat :=
  let ds := s.data.takeWhile Char.isDigit
  if ds.isEmpty then none
  else some (ds.foldl (fun acc c => acc * 10 + (c.toNat - 48)) 0)

/-- `validateEnvironmentConfig` from the current
`src/utils/validation.ts` (lines 10–25): requires non-falsy
`WPENGINE_USERNAME` and `WPENGINE_PASSWORD`; it performs no base-URL
check at all. -/
def validateEnvironmentConfig (env : EnvVars) : Except String Unit :=
  if strFalsy env.wpUsername || strFalsy env.wpPassword then
    .error "WPENGINE_USERNAME and WPENGINE_PASSWORD environment variables are required. Get these from your WP Engine Portal API Access page."
  else if ((env.wpUsername).getD "").length = 0 then
    .error "WPENGINE_USERNAME must be a non-empty string"
  else if ((env.wpPassword).getD "").length = 0 then
    .error "WPENGINE_PASSWORD must be a non-empty string"
  else .ok ()

/-- `createWPEngineClient` from the current
`src/services/wpengine-api.ts` (lines 519–535): reads
`WPENGINE_AUTH_TOKEN_ID`/`WPENGINE_AUTH_PASSWORD` and builds the
config; throws when either is falsy. -/
def createWPEngineClient (env : EnvVars) : Except String WPEngineAuthConfig :=
  if strFalsy env.wpAuthTokenId || strFalsy env.wpAuthPassword then
    .error "WPENGINE_AUTH_TOKEN_ID and WPENGINE_AUTH_PASSWORD environment variables are required. Get these from your WP Engine Portal API Access page."
  else
    .ok ⟨(env.wpAuthTokenId).getD "", (env.wpAuthPassword).getD "",
      (env.wpApiBaseUrl).getD "https://api.wpengineapi.com/v1",
      (((env.wpRequestTimeout).getD "30000").data.takeWhile Char.isDigit).foldl
        (fun acc c => acc * 10 + (Int.ofNat c.toNat - 48)) 0⟩

/-- Outcome of the startup sequence of src/index.ts lines 36–44: either
the process terminated before serving (validation error caught and
`process.exit(1)`, or an uncaught throw from `createWPEngineClient`),
or it holds a configured client and proceeds to serve tool calls.  The
later network connection probe in `main()` is an I/O effect outside
this model. -/
inductive StartupResult where
  | exited (msg : String)
  | running (cfg : WPEngineAuthConfig)
deriving DecidableEq, Repr

def startup (env : EnvVars) : StartupResult :=
  match validateEnvironmentConfig env with
  | .error m => .exited ("Environment configuration error: " ++ m)
  | .ok _ =>
    match createWPEngineClient env with
    | .error m => .exited m
    | .ok cfg => .running cfg

/-- True iff startup got past environment validation and client
construction, i.e. the process goes on to serve invocations. -/
def startupServes (env : EnvVars) : Bool :=
  match startup env with
  | .running _ => true
  | .exited _ => false

-- ===================================================================
-- Legacy module variant (src/unnamed/part_001 and the API-token client
-- in src/unnamed/part_002)
-- ===================================================================

namespace Legacy

/-- Legacy `WPEngineAuthConfig`: a single bearer-style API token. -/
structure AuthConfig where
  apiToken : String
  baseUrl : String
  timeout : Int
deriving DecidableEq, Repr

/-- Legacy `WPEngineApiClient.handleApiError` (part_002 lines 359–386);
it differs from the current one only in the 401 text and in reading the
nested `error.message` of the legacy error body shape. -/
def handleApiError (cfg : AuthConfig) (e : ApiErrorInfo) : String :=
  match cfg with
  | _ =>
    if e.status = some 401 then
      "WP Engine API authentication failed. Please check your API token."
    else if e.status = some 403 then
      "WP Engine API access forbidden. Please check your permissions."
    else if e.status = some 404 then
      "WP Engine API endpoint not found or resource does not exist."
    else if e.status = some 429 then
      "WP Engine API rate limit exceeded. Please try again later."
    else if isServerErrStatus e.status then
      "WP Engine API server error. Please try again later."
    else
      match e.bodyMessage with
      | some m => "WP Engine API error: " ++ m
      | none => "WP Engine API error: " ++ e.message

/-- Legacy `createSiteSchema` (part_001 lines 18–23): `environment`
defaults to `production`; `php_version`/`wp_version` are optional with
no default. -/
def createSiteSchema : ObjectSchema :=
  [("name", ⟨.zstring [.minLen 1 (some "Site name is required"),
      .maxLen 50 (some "Site name must be less than 50 characters")], false, none⟩),
   ("environment", ⟨.zenum ["production", "staging", "development"], true,
      some (.str "production")⟩),
   ("php_version", ⟨.zstring [], true, none⟩),
   ("wp_version", ⟨.zstring [], true, none⟩)]

/-- Legacy `getSiteInfoSchema` (part_001 lines 13–15): any non-empty
string is accepted as a site id. -/
def getSiteInfoSchema : ObjectSchema :=
  [("site_id", ⟨.zstring [.minLen 1 (some "Site ID is required")], false, none⟩)]

/-- Legacy `validateEnvironmentConfig` (part_001 lines 58–77): requires
`WPENGINE_API_TOKEN` (length ≥ 10), an HTTPS base URL, and a numeric
timeout when one is configured. -/
def validateEnvironmentConfig (env : EnvVars) : Except String Unit :=
  if strFalsy env.wpApiToken then
    .error "WPENGINE_API_TOKEN environment variable is required"
  else if ((env.wpApiToken).getD "").length < 10 then
    .error "WPENGINE_API_TOKEN appears to be invalid (too short)"
  else if !strStartsWith "https://" ((env.wpApiBaseUrl).getD "https://api.wpengineapi.com/v1") then
    .error "WPENGINE_API_BASE_URL must be a valid HTTPS URL"
  else if (match env.wpRequestTimeout with
           | some t => !t.isEmpty && (jsParseInt t).isNone
           | none => false) then
    .error "WPENGINE_REQUEST_TIMEOUT must be a valid number"
  else .ok ()

end Legacy

-- ===================================================================
-- Small auxiliary definitions used by the theorems
-- ===================================================================

/-- Decidable equality for `Except`, for evaluating parse results. -/
instance {ε α : Type} [DecidableEq ε] [DecidableEq α] : DecidableEq (Except ε α) := fun a b =>
  match a, b with
  | .ok x, .ok y =>
    if h : x = y then isTrue (by rw [h]) else isFalse (by intro hc; cases hc; exact h rfl)
  | .error x, .error y =>
    if h : x = y then isTrue (by rw [h]) else isFalse (by intro hc; cases hc; exact h rfl)
  | .ok _, .error _ => isFalse (by intro hc; cases hc)
  | .error _, .ok _ => isFalse (by intro hc; cases hc)

/-- Character-list prefix test. -/
def prefMatch : List Char → List Char → Bool
  | [], _ => true
  | _ :: _, [] => false
  | a :: l, b :: r => a = b && prefMatch l r

/-- Substring occurrence test, used to state "the message contains a
not-found indication". -/
def occursStr (pat s : String) : Bool :=
  go pat.data s.data
where
  go (p : List Char) : List Char → Bool
    | [] => p.isEmpty
    | c :: rest => prefMatch p (c :: rest) || go p rest

/-- Whether the schema declares a field of the given name. -/
def hasField (os : ObjectSchema) (k : String) : Bool :=
  os.any (fun p => p.1 == k)

/-- Decidable phrasing of "the required field is present and its value
conforms to its schema". -/
def reqFieldOkB (args : RawArgs) (p : String × FieldSpec) : Bool :=
  match lookupArg args p.1 with
  | some v => (checkValue p.2.schema [p.1] v).isEmpty
  | none => false

/-- A fixed sample client configuration for concrete instances. -/
def cfgEx : WPEngineAuthConfig := ⟨"token-id", "secret-pw", "https://api.wpengineapi.com/v1", 30000⟩

/-- A fixed well-formed (lowercase) UUID string. -/
def uuidEx : String := "11111111-1111-1111-1111-111111111111"

-- ===================================================================
-- Validator lemmas
-- ===================================================================

theorem lookupArg_cons_ne (k f : String) (v : JValue) (args : RawArgs) (h : k ≠ f) :
    lookupArg ((k, v) :: args) f = lookupArg args f := by
  simp [lookupArg, h]

theorem hasField_cons_false {f : String} {spec : FieldSpec} {rest : ObjectSchema} {k : String}
    (h : hasField ((f, spec) :: rest) k = false) : f ≠ k ∧ hasField rest k = false := by
  have h' : ((f == k) || hasField rest k) = false := h
  rcases Bool.or_eq_false_iff.mp h' with ⟨h1, h2⟩
  exact ⟨by simpa using h1, h2⟩

theorem parseFields_extra (os : ObjectSchema) (args : RawArgs) (k : String) (v : JValue)
    (h : hasField os k = false) :
    parseFields os ((k, v) :: args) = parseFields os args := by
  induction os with
  | nil => rfl
  | cons p rest ih =>
    obtain ⟨f, spec⟩ := p
    obtain ⟨hfk, hrest⟩ := hasField_cons_false h
    have hlk : lookupArg ((k, v) :: args) f = lookupArg args f :=
      lookupArg_cons_ne k f v args (fun e => hfk e.symm)
    simp only [parseFields, ih hrest, hlk]

theorem required_missing_issue (os : ObjectSchema) (args : RawArgs) (f : String) (spec : FieldSpec)
    (hmem : (f, spec) ∈ os) (hreq : spec.optional = false) (hmiss : lookupArg args f = none) :
    Issue.mk [f] "Required" ∈ (parseFields os args).1 := by
  induction os with
  | nil => cases hmem
  | cons p rest ih =>
    obtain ⟨g, gspec⟩ := p
    simp only [parseFields]
    rcases List.mem_cons.mp hmem with hhead | htail
    · have hh := hhead
      rw [Prod.mk.injEq] at hh
      obtain ⟨hf, hs⟩ := hh
      subst hf
      subst hs
      simp [hmiss, hreq]
    · have hmemr := ih htail
      cases hl : lookupArg args g with
      | none =>
        by_cases hopt : gspec.optional = true
        · cases hd : gspec.defaultVal <;> simp [hl, hopt, hd, hmemr]
        · simp [hl, hopt, hmemr]
      | some v => simp [hl, hmemr]

theorem checkValue_sub_parseFields (os : ObjectSchema) (args : RawArgs) (f : String)
    (spec : FieldSpec) (v : JValue) (hmem : (f, spec) ∈ os)
    (hlook : lookupArg args f = some v) :
    ∀ i ∈ checkValue spec.schema [f] v, i ∈ (parseFields os args).1 := by
  induction os with
  | nil => cases hmem
  | cons p rest ih =>
    obtain ⟨g, gspec⟩ := p
    simp only [parseFields]
    rcases List.mem_cons.mp hmem with hhead | htail
    · have hh := hhead
      rw [Prod.mk.injEq] at hh
      obtain ⟨hf, hs⟩ := hh
      subst hf
      subst hs
      intro i hi
      simp [hlook, hi]
    · intro i hi
      have hmemr := ih htail i hi
      cases hl : lookupArg args g with
      | none =>
        by_cases hopt : gspec.optional = true
        · cases hd : gspec.defaultVal <;> simp [hl, hopt, hd, hmemr]
        · simp [hl, hopt, hmemr]
      | some w => simp [hl, hmemr]

theorem parseFields_out_lookup_none (os : ObjectSchema) (args : RawArgs) (k : String)
    (h : hasField os k = false) : lookupArg (parseFields os args).2 k = none := by
  induction os with
  | nil => rfl
  | cons p rest ih =>
    obtain ⟨f, spec⟩ := p
    obtain ⟨hfk, hrest⟩ := hasField_cons_false h
    have ihr := ih hrest
    simp only [parseFields]
    cases hl : lookupArg args f with
    | none =>
      by_cases hopt : spec.optional = true
      · cases hd : spec.defaultVal with
        | none => simpa [hl, hopt, hd] using ihr
        | some d => simp [hl, hopt, hd, lookupArg, hfk, ihr]
      · simpa [hl, hopt] using ihr
    | some v => simp [hl, lookupArg, hfk, ihr]

theorem hasField_false_of_not_mem {os : ObjectSchema} {k : String}
    (h : k ∉ os.map Prod.fst) : hasField os k = false := by
  by_contra hc
  have ht : hasField os k = true := by revert hc; cases hasField os k <;> simp
  simp only [hasField, List.any_eq_true] at ht
  obtain ⟨p, hp, hpk⟩ := ht
  exact h (List.mem_map.mpr ⟨p, hp, beq_iff_eq.mp hpk⟩)

theorem parseFields_defaults (os : ObjectSchema) (args : RawArgs)
    (hnd : (os.map Prod.fst).Nodup)
    (hreq : ∀ p ∈ os, p.2.optional = false → reqFieldOkB args p = true)
    (hopt : ∀ p ∈ os, p.2.optional = true → lookupArg args p.1 = none) :
    (parseFields os args).1 = [] ∧
    ∀ p ∈ os, p.2.optional = true →
      lookupArg (parseFields os args).2 p.1 = p.2.defaultVal := by
  induction os with
  | nil => exact ⟨rfl, by intro p hp; cases hp⟩
  | cons q rest ih =>
    obtain ⟨f, spec⟩ := q
    simp only [List.map_cons, List.nodup_cons] at hnd
    obtain ⟨hfnot, hndr⟩ := hnd
    obtain ⟨ih1, ih2⟩ := ih hndr (fun p hp => hreq p (List.mem_cons_of_mem _ hp))
      (fun p hp => hopt p (List.mem_cons_of_mem _ hp))
    by_cases hso : spec.optional = true
    · have hlf : lookupArg args f = none := hopt (f, spec) (List.mem_cons_self _ _) hso
      cases hd : spec.defaultVal with
      | some d =>
        refine ⟨by simp [parseFields, hlf, hso, hd, ih1], ?_⟩
        intro p hp hpo
        rcases List.mem_cons.mp hp with hh | ht
        · subst hh
          simp [parseFields, hlf, hso, hd, lookupArg]
        · have hpf : p.1 ≠ f := fun e => hfnot (e ▸ List.mem_map_of_mem Prod.fst ht)
          simp only [parseFields, hlf, hso, hd, if_true]
          rw [lookupArg_cons_ne f p.1 d _ (fun e => hpf e.symm)]
          exact ih2 p ht hpo
      | none =>
        refine ⟨by simp [parseFields, hlf, hso, hd, ih1], ?_⟩
        intro p hp hpo
        rcases List.mem_cons.mp hp with hh | ht
        · subst hh
          simp only [parseFields, hlf, hso, hd, if_true]
          rw [parseFields_out_lookup_none rest args f (hasField_false_of_not_mem hfnot)]
        · simp only [parseFields, hlf, hso, hd, if_true]
          exact ih2 p ht hpo
    · have hro := hreq (f, spec) (List.mem_cons_self _ _)
        (by revert hso; cases spec.optional <;> simp)
      simp only [reqFieldOkB] at hro
      cases hl : lookupArg args f with
      | none => rw [hl] at hro; cases hro
      | some v =>
        rw [hl] at hro
        have hcv : checkValue spec.schema [f] v = [] := by
          simpa [List.isEmpty_iff] using hro
        refine ⟨by simp [parseFields, hl, hcv, ih1], ?_⟩
        intro p hp hpo
        rcases List.mem_cons.mp hp with hh | ht
        · subst hh
          exact absurd hpo hso
        · have hpf : p.1 ≠ f := fun e => hfnot (e ▸ List.mem_map_of_mem Prod.fst ht)
          simp only [parseFields, hl, hcv]
          rw [lookupArg_cons_ne f p.1 v _ (fun e => hpf e.symm)]
          exact ih2 p ht hpo

-- ===================================================================
-- Handler lemmas
-- ===================================================================

theorem clientCall_ok (cfg : WPEngineAuthConfig) (backend : BackendCall → BackendOutcome)
    (c : BackendCall) (t : String) (f : RawArgs → Envelope) (e : Envelope)
    (calls : List BackendCall) (h : clientCall cfg backend c t f = (.ok e, calls)) :
    ∃ p, backend c = .ok p ∧ e = f p ∧ calls = [c] := by
  unfold clientCall at h
  cases hb : backend c with
  | ok p =>
    rw [hb] at h
    simp [Prod.ext_iff] at h
    exact ⟨p, rfl, h.1.symm, h.2.symm⟩
  | httpErr s b =>
    rw [hb] at h
    simp [Prod.ext_iff] at h
  | transportErr m =>
    rw [hb] at h
    simp [Prod.ext_iff] at h

theorem runTool_validate_error (cfg : WPEngineAuthConfig) (backend : BackendCall → BackendOutcome)
    (name : String) (args : RawArgs) (os : ObjectSchema) (m : String)
    (hts : toolSchema name = some os) (hval : validateInput os args = .error m) :
    runTool cfg backend name args = (.error m, []) := by
  by_cases h1 : name = "list_sites"
  · subst h1
    have h2 : some listSitesSchema = some os := hts
    injection h2 with h3
    subst h3
    simp [runTool, hval]
  by_cases h2 : name = "get_site_info"
  · subst h2
    have h2 : some getSiteInfoSchema = some os := hts
    injection h2 with h3
    subst h3
    simp [runTool, hval]
  by_cases h3 : name = "create_site"
  · subst h3
    have h2 : some createSiteSchema = some os := hts
    injection h2 with h3
    subst h3
    simp [runTool, hval]
  by_cases h4 : name = "update_site"
  · subst h4
    have h2 : some updateSiteSchema = some os := hts
    injection h2 with h3
    subst h3
    simp [runTool, hval]
  by_cases h5 : name = "delete_site"
  · subst h5
    have h2 : some deleteSiteSchema = some os := hts
    injection h2 with h3
    subst h3
    simp [runTool, hval]
  · exfalso
    simp [toolSchema, h1, h2, h3, h4, h5] at hts

theorem runTool_ok_shape (cfg : WPEngineAuthConfig) (backend : BackendCall → BackendOutcome)
    (name : String) (args : RawArgs) (e : Envelope) (calls : List BackendCall)
    (h : runTool cfg backend name args = (.ok e, calls)) :
    e.success = true ∧ e.error = none ∧
    (name = "delete_site" → e.data = none ∧ e.message.isSome = true) ∧
    (name ≠ "delete_site" → e.data.isSome = true) := by
  by_cases h1 : name = "list_sites"
  · subst h1
    simp only [runTool] at h
    cases hv : validateInput listSitesSchema args with
    | error m => rw [hv] at h; simp [Prod.ext_iff] at h
    | ok out =>
      rw [hv] at h
      simp only [] at h
      obtain ⟨p, _, he, _⟩ := clientCall_ok _ _ _ _ _ _ _ h
      subst he
      exact ⟨rfl, rfl, fun hc => absurd hc (by decide), fun _ => rfl⟩
  by_cases h2 : name = "get_site_info"
  · subst h2
    simp only [runTool] at h
    cases hv : validateInput getSiteInfoSchema args with
    | error m => rw [hv] at h; simp [Prod.ext_iff] at h
    | ok out =>
      rw [hv] at h
      simp only [] at h
      obtain ⟨p, _, he, _⟩ := clientCall_ok _ _ _ _ _ _ _ h
      subst he
      exact ⟨rfl, rfl, fun hc => absurd hc (by decide), fun _ => rfl⟩
  by_cases h3 : name = "create_site"
  · subst h3
    simp only [runTool] at h
    cases hv : validateInput createSiteSchema args with
    | error m => rw [hv] at h; simp [Prod.ext_iff] at h
    | ok out =>
      rw [hv] at h
      simp only [] at h
      obtain ⟨p, _, he, _⟩ := clientCall_ok _ _ _ _ _ _ _ h
      subst he
      exact ⟨rfl, rfl, fun hc => absurd hc (by decide), fun _ => rfl⟩
  by_cases h4 : name = "update_site"
  · subst h4
    simp only [runTool] at h
    cases hv : validateInput updateSiteSchema args with
    | error m => rw [hv] at h; simp [Prod.ext_iff] at h
    | ok out =>
      rw [hv] at h
      simp only [] at h
      obtain ⟨p, _, he, _⟩ := clientCall_ok _ _ _ _ _ _ _ h
      subst he
      exact ⟨rfl, rfl, fun hc => absurd hc (by decide), fun _ => rfl⟩
  by_cases h5 : name = "delete_site"
  · subst h5
    simp only [runTool] at h
    cases hv : validateInput deleteSiteSchema args with
    | error m => rw [hv] at h; simp [Prod.ext_iff] at h
    | ok out =>
      rw [hv] at h
      simp only [] at h
      obtain ⟨p, _, he, _⟩ := clientCall_ok _ _ _ _ _ _ _ h
      subst he
      exact ⟨rfl, rfl, fun _ => ⟨rfl, rfl⟩, fun hc => absurd rfl hc⟩
  · simp [runTool, h1, h2, h3, h4, h5, Prod.ext_iff] at h

theorem callTool_of_runTool_ok (cfg : WPEngineAuthConfig) (backend : BackendCall → BackendOutcome)
    (name : String) (args : RawArgs) (e : Envelope) (calls : List BackendCall)
    (h : runTool cfg backend name args = (.ok e, calls)) :
    callTool cfg backend name args = (⟨e, false⟩, calls) := by
  unfold callTool
  rw [h]

theorem callTool_of_runTool_error (cfg : WPEngineAuthConfig) (backend : BackendCall → BackendOutcome)
    (name : String) (args : RawArgs) (m : String) (calls : List BackendCall)
    (h : runTool cfg backend name args = (.error m, calls)) :
    callTool cfg backend name args = (⟨⟨false, none, none, some m⟩, true⟩, calls) := by
  unfold callTool
  rw [h]

theorem callTool_marker_iff (cfg : WPEngineAuthConfig) (backend : BackendCall → BackendOutcome)
    (name : String) (args : RawArgs) :
    ((callTool cfg backend name args).1.isError = true ↔
      (callTool cfg backend name args).1.envelope.success = false) ∧
    ((callTool cfg backend name args).1.isError = true ↔
      (callTool cfg backend name args).1.envelope.error.isSome = true) := by
  rcases hr : runTool cfg backend name args with ⟨res, calls⟩
  cases res with
  | ok e =>
    have hs := runTool_ok_shape cfg backend name args e calls hr
    rw [callTool_of_runTool_ok cfg backend name args e calls hr]
    simp [hs.1, hs.2.1]
  | error m =>
    rw [callTool_of_runTool_error cfg backend name args m calls hr]
    simp

theorem clientCall_cfg_free (cfg cfg' : WPEngineAuthConfig)
    (backend : BackendCall → BackendOutcome) (c : BackendCall) (t : String)
    (f : RawArgs → Envelope) :
    clientCall cfg backend c t f = clientCall cfg' backend c t f := by
  unfold clientCall
  cases backend c <;> rfl

theorem runTool_cfg_free (cfg cfg' : WPEngineAuthConfig)
    (backend : BackendCall → BackendOutcome) (name : String) (args : RawArgs) :
    runTool cfg backend name args = runTool cfg' backend name args := by
  by_cases h1 : name = "list_sites"
  · subst h1
    simp only [runTool]
    cases hv : validateInput listSitesSchema args <;> simp [clientCall_cfg_free cfg cfg']
  by_cases h2 : name = "get_site_info"
  · subst h2
    simp only [runTool]
    cases hv : validateInput getSiteInfoSchema args <;> simp [clientCall_cfg_free cfg cfg']
  by_cases h3 : name = "create_site"
  · subst h3
    simp only [runTool]
    cases hv : validateInput createSiteSchema args <;> simp [clientCall_cfg_free cfg cfg']
  by_cases h4 : name = "update_site"
  · subst h4
    simp only [runTool]
    cases hv : validateInput updateSiteSchema args <;> simp [clientCall_cfg_free cfg cfg']
  by_cases h5 : name = "delete_site"
  · subst h5
    simp only [runTool]
    cases hv : validateInput deleteSiteSchema args <;> simp [clientCall_cfg_free cfg cfg']
  · simp [runTool, h1, h2, h3, h4, h5]

theorem callTool_cfg_free (cfg cfg' : WPEngineAuthConfig)
    (backend : BackendCall → BackendOutcome) (name : String) (args : RawArgs) :
    callTool cfg backend name args = callTool cfg' backend name args := by
  unfold callTool
  rw [runTool_cfg_free cfg cfg' backend name args]

theorem parse_error_of_required_missing (os : ObjectSchema) (args : RawArgs) (f : String)
    (spec : FieldSpec) (hmem : (f, spec) ∈ os) (hreq : spec.optional = false)
    (hmiss : lookupArg args f = none) :
    ∃ issues, parseObject os args = .error issues ∧ Issue.mk [f] "Required" ∈ issues := by
  have hi := required_missing_issue os args f spec hmem hreq hmiss
  refine ⟨(parseFields os args).1, ?_, hi⟩
  have hne : (parseFields os args).1 ≠ [] := List.ne_nil_of_mem hi
  simp [parseObject, List.isEmpty_iff, hne]

theorem validate_error_of_required_missing (os : ObjectSchema) (args : RawArgs) (f : String)
    (spec : FieldSpec) (hmem : (f, spec) ∈ os) (hreq : spec.optional = false)
    (hmiss : lookupArg args f = none) :
    ∃ m, validateInput os args = .error m := by
  obtain ⟨issues, hpo, _⟩ := parse_error_of_required_missing os args f spec hmem hreq hmiss
  refine ⟨"Invalid input: " ++ String.intercalate ", " (issues.map issueText), ?_⟩
  simp [validateInput, hpo]

-- ===================================================================
-- Claims
-- ===================================================================

/-- C1 (counterexample): the claim "success == true iff data is present"
fails on the code: delete_site's success envelope has `success: true` but
no `data` field (src/index.ts lines 249–257 serialize only `success` and
`message`). -/
theorem c1_counterexample :
    (callTool cfgEx (fun _ => .ok []) "delete_site" [("site_id", JValue.str uuidEx)]).1.envelope.success = true ∧
    (callTool cfgEx (fun _ => .ok []) "delete_site" [("site_id", JValue.str uuidEx)]).1.envelope.data = none ∧
    (callTool cfgEx (fun _ => .ok []) "delete_site" [("site_id", JValue.str uuidEx)]).1.envelope.message.isSome = true :=
  ⟨rfl, rfl, rfl⟩

/-- C1 (amended): for every invocation, `success == true` iff the `error`
field is absent, and `success == false` iff the `error` field is present
and the `data` field is absent; on success the `data` field is present
for every tool except `delete_site`, whose success envelope carries only
a `message` and no `data`. -/
theorem c1_envelope_invariant (cfg : WPEngineAuthConfig) (backend : BackendCall → BackendOutcome)
    (name : String) (args : RawArgs) :
    ((callTool cfg backend name args).1.envelope.success = true ↔
      (callTool cfg backend name args).1.envelope.error = none) ∧
    ((callTool cfg backend name args).1.envelope.success = false ↔
      ((callTool cfg backend name args).1.envelope.error.isSome = true ∧
       (callTool cfg backend name args).1.envelope.data = none)) ∧
    ((callTool cfg backend name args).1.envelope.success = true → name = "delete_site" →
      (callTool cfg backend name args).1.envelope.data = none ∧
      (callTool cfg backend name args).1.envelope.message.isSome = true) ∧
    ((callTool cfg backend name args).1.envelope.success = true → name ≠ "delete_site" →
      (callTool cfg backend name args).1.envelope.data.isSome = true) := by
  rcases hr : runTool cfg backend name args with ⟨res, calls⟩
  cases res with
  | ok e =>
    obtain ⟨hsu, her, hdel, hnotdel⟩ := runTool_ok_shape cfg backend name args e calls hr
    rw [callTool_of_runTool_ok cfg backend name args e calls hr]
    simp only []
    refine ⟨?_, ?_, ?_, ?_⟩
    · simp [hsu, her]
    · simp [hsu, her]
    · intro _ hn
      exact hdel hn
    · intro _ hn
      exact hnotdel hn
  | error m =>
    rw [callTool_of_runTool_error cfg backend name args m calls hr]
    simp

/-- C1 (witness): the amended invariant instantiated at a successful
delete_site invocation. -/
theorem c1_envelope_invariant_witness :
    (callTool cfgEx (fun _ => .ok []) "delete_site" [("site_id", JValue.str uuidEx)]).1.envelope.data = none ∧
    (callTool cfgEx (fun _ => .ok []) "delete_site" [("site_id", JValue.str uuidEx)]).1.envelope.message.isSome = true :=
  (c1_envelope_invariant cfgEx (fun _ => .ok []) "delete_site"
      [("site_id", JValue.str uuidEx)]).2.2.1 rfl rfl

/-- C2 (counterexample): for the get-site schema with an empty argument
bag, the failure detail for the missing required `site_id` carries zod's
default message "Required" (capitalized), not the reason string
"required" the claim states. -/
theorem c2_counterexample :
    parseObject getSiteInfoSchema [] = .error [⟨["site_id"], "Required"⟩] ∧
    Issue.mk ["site_id"] "required" ∉ [Issue.mk ["site_id"] "Required"] :=
  ⟨rfl, by decide⟩

/-- C2 (amended): for every schema and raw argument bag missing a field
the schema declares as required, validation fails and the detail list
contains that field with zod's default reason "Required"; and for every
tool of the server, such a bag makes the handler return an error without
a single backend call. -/
theorem c2_required_not_forwarded :
    (∀ (os : ObjectSchema) (args : RawArgs) (f : String) (spec : FieldSpec),
      (f, spec) ∈ os → spec.optional = false → lookupArg args f = none →
      ∃ issues, parseObject os args = .error issues ∧ Issue.mk [f] "Required" ∈ issues) ∧
    (∀ (cfg : WPEngineAuthConfig) (backend : BackendCall → BackendOutcome) (name : String)
      (args : RawArgs) (os : ObjectSchema) (f : String) (spec : FieldSpec),
      toolSchema name = some os → (f, spec) ∈ os → spec.optional = false →
      lookupArg args f = none →
      (callTool cfg backend name args).2 = [] ∧
      (callTool cfg backend name args).1.isError = true) := by
  constructor
  · exact parse_error_of_required_missing
  · intro cfg backend name args os f spec hts hmem hreq hmiss
    obtain ⟨m, hval⟩ := validate_error_of_required_missing os args f spec hmem hreq hmiss
    have hrun := runTool_validate_error cfg backend name args os m hts hval
    rw [callTool_of_runTool_error cfg backend name args m [] hrun]
    exact ⟨rfl, rfl⟩

/-- C2 (witness): the amended claim instantiated at `get_site_info` with
an empty bag: the detail carries ("site_id", "Required") and the backend
is never called. -/
theorem c2_required_not_forwarded_witness :
    (∃ issues, parseObject getSiteInfoSchema [] = .error issues ∧
      Issue.mk ["site_id"] "Required" ∈ issues) ∧
    (callTool cfgEx (fun _ => .ok []) "get_site_info" []).2 = [] ∧
    (callTool cfgEx (fun _ => .ok []) "get_site_info" []).1.isError = true :=
  ⟨c2_required_not_forwarded.1 getSiteInfoSchema [] "site_id" (reqUuid "site_id").2
      (by decide) rfl rfl,
   c2_required_not_forwarded.2 cfgEx (fun _ => .ok []) "get_site_info" []
      getSiteInfoSchema "site_id" (reqUuid "site_id").2 rfl (by decide) rfl rfl⟩

theorem handleApiError_404 (cfg : WPEngineAuthConfig) (e : ApiErrorInfo)
    (h : e.status = some 404) :
    handleApiError cfg e = "WP Engine API endpoint not found or resource does not exist." := by
  simp [handleApiError, h, isServerErrStatus]

theorem clientCall_404 (cfg : WPEngineAuthConfig) (backend : BackendCall → BackendOutcome)
    (c : BackendCall) (t : String) (onOk : RawArgs → Envelope) (body : Option String)
    (hbc : backend c = .httpErr 404 body) :
    clientCall cfg backend c t onOk =
      (.error (t ++ "WP Engine API endpoint not found or resource does not exist."), [c]) := by
  simp only [clientCall, hbc]
  rw [handleApiError_404 cfg (errInfo (.httpErr 404 body)) rfl]

theorem occursStr_go_append (p l r : List Char) (h : occursStr.go p r = true) :
    occursStr.go p (l ++ r) = true := by
  induction l with
  | nil => simpa using h
  | cons c l ih =>
    simp only [List.cons_append, occursStr.go, Bool.or_eq_true]
    exact Or.inr ih

theorem occursStr_append_right (pat s t : String) (h : occursStr pat t = true) :
    occursStr pat (s ++ t) = true := by
  unfold occursStr at h ⊢
  rw [String.data_append]
  exact occursStr_go_append pat.data s.data t.data h

theorem callTool_snd (cfg : WPEngineAuthConfig) (backend : BackendCall → BackendOutcome)
    (name : String) (args : RawArgs) :
    (callTool cfg backend name args).2 = (runTool cfg backend name args).2 := by
  unfold callTool
  rcases hres : runTool cfg backend name args with ⟨res, calls⟩
  cases res <;> rfl

theorem runTool_404 (cfg : WPEngineAuthConfig) (backend : BackendCall → BackendOutcome)
    (name : String) (args : RawArgs)
    (hb : ∀ c, ∃ body, backend c = .httpErr 404 body)
    (hcalls : (runTool cfg backend name args).2 ≠ []) :
    ∃ t calls, runTool cfg backend name args =
      (.error (t ++ "WP Engine API endpoint not found or resource does not exist."), calls) := by
  by_cases h1 : name = "list_sites"
  · subst h1
    cases hv : validateInput listSitesSchema args with
    | error m =>
      have hrun := runTool_validate_error cfg backend "list_sites" args listSitesSchema m rfl hv
      rw [hrun] at hcalls
      exact absurd rfl hcalls
    | ok out =>
      obtain ⟨body, hbc⟩ := hb .listSites
      refine ⟨"Failed to list sites: ", [.listSites], ?_⟩
      simp only [runTool]
      rw [hv]
      exact clientCall_404 cfg backend _ _ _ body hbc
  by_cases h2 : name = "get_site_info"
  · subst h2
    cases hv : validateInput getSiteInfoSchema args with
    | error m =>
      have hrun := runTool_validate_error cfg backend "get_site_info" args getSiteInfoSchema m rfl hv
      rw [hrun] at hcalls
      exact absurd rfl hcalls
    | ok out =>
      obtain ⟨body, hbc⟩ := hb (.getSite (strField out "site_id"))
      refine ⟨"Failed to get site info: ", [.getSite (strField out "site_id")], ?_⟩
      simp only [runTool]
      rw [hv]
      exact clientCall_404 cfg backend _ _ _ body hbc
  by_cases h3 : name = "create_site"
  · subst h3
    cases hv : validateInput createSiteSchema args with
    | error m =>
      have hrun := runTool_validate_error cfg backend "create_site" args createSiteSchema m rfl hv
      rw [hrun] at hcalls
      exact absurd rfl hcalls
    | ok out =>
      obtain ⟨body, hbc⟩ := hb (.createSite (strField out "name") (strField out "account_id"))
      refine ⟨"Failed to create site: ",
        [.createSite (strField out "name") (strField out "account_id")], ?_⟩
      simp only [runTool]
      rw [hv]
      exact clientCall_404 cfg backend _ _ _ body hbc
  by_cases h4 : name = "update_site"
  · subst h4
    cases hv : validateInput updateSiteSchema args with
    | error m =>
      have hrun := runTool_validate_error cfg backend "update_site" args updateSiteSchema m rfl hv
      rw [hrun] at hcalls
      exact absurd rfl hcalls
    | ok out =>
      obtain ⟨body, hbc⟩ := hb (.updateSite (strField out "site_id") (removeArg out "site_id"))
      refine ⟨"Failed to update site: ",
        [.updateSite (strField out "site_id") (removeArg out "site_id")], ?_⟩
      simp only [runTool]
      rw [hv]
      exact clientCall_404 cfg backend _ _ _ body hbc
  by_cases h5 : name = "delete_site"
  · subst h5
    cases hv : validateInput deleteSiteSchema args with
    | error m =>
      have hrun := runTool_validate_error cfg backend "delete_site" args deleteSiteSchema m rfl hv
      rw [hrun] at hcalls
      exact absurd rfl hcalls
    | ok out =>
      obtain ⟨body, hbc⟩ := hb (.deleteSite (strField out "site_id"))
      refine ⟨"Failed to delete site: ", [.deleteSite (strField out "site_id")], ?_⟩
      simp only [runTool]
      rw [hv]
      exact clientCall_404 cfg backend _ _ _ body hbc
  · have hrun : runTool cfg backend name args = (.error ("Unknown tool: " ++ name), []) := by
      simp [runTool, h1, h2, h3, h4, h5]
    rw [hrun] at hcalls
    exact absurd rfl hcalls

/-- C3: the error translation maps every HTTP 404 to the fixed not-found
message (which contains "not found"); consequently, for every invocation
— any tool, any arguments, any configuration — whose backend call fails
with status 404 (any error body), the returned envelope has
`success: false` and an error message containing the not-found
indication, and the protocol-level `isError` flag is set; moreover, on
every invocation whatsoever, `isError` is set exactly when the
in-payload `success` is false, i.e. exactly when the `error` field is
present, so both markers are set together on every failure path. -/
theorem c3_not_found_both_markers :
    (∀ (cfg : WPEngineAuthConfig) (e : ApiErrorInfo), e.status = some 404 →
      handleApiError cfg e = "WP Engine API endpoint not found or resource does not exist.") ∧
    occursStr "not found"
      "WP Engine API endpoint not found or resource does not exist." = true ∧
    (∀ (cfg : WPEngineAuthConfig) (backend : BackendCall → BackendOutcome)
      (name : String) (args : RawArgs),
      (∀ c, ∃ body, backend c = .httpErr 404 body) →
      (callTool cfg backend name args).2 ≠ [] →
      (callTool cfg backend name args).1.envelope.success = false ∧
      (callTool cfg backend name args).1.isError = true ∧
      ∃ m, (callTool cfg backend name args).1.envelope.error = some m ∧
        occursStr "not found" m = true) ∧
    (∀ (cfg : WPEngineAuthConfig) (backend : BackendCall → BackendOutcome)
      (name : String) (args : RawArgs),
      ((callTool cfg backend name args).1.isError = true ↔
        (callTool cfg backend name args).1.envelope.success = false) ∧
      ((callTool cfg backend name args).1.isError = true ↔
        (callTool cfg backend name args).1.envelope.error.isSome = true)) := by
  refine ⟨handleApiError_404, by decide, ?_, callTool_marker_iff⟩
  intro cfg backend name args hb hcalls
  have hcalls' : (runTool cfg backend name args).2 ≠ [] := by
    rw [← callTool_snd cfg backend name args]
    exact hcalls
  obtain ⟨t, calls, hrun⟩ := runTool_404 cfg backend name args hb hcalls'
  rw [callTool_of_runTool_error cfg backend name args _ calls hrun]
  exact ⟨rfl, rfl,
    t ++ "WP Engine API endpoint not found or resource does not exist.", rfl,
    occursStr_append_right "not found" t
      "WP Engine API endpoint not found or resource does not exist." (by decide)⟩

/-- C3 (witness): the universal 404 statement instantiated at a concrete
`get_site_info` invocation against a backend that answers 404. -/
theorem c3_not_found_both_markers_witness :
    handleApiError cfgEx ⟨some 404, none, "Request failed with status code 404"⟩ =
      "WP Engine API endpoint not found or resource does not exist." ∧
    (callTool cfgEx (fun _ => .httpErr 404 none) "get_site_info"
        [("site_id", JValue.str uuidEx)]).1.envelope.success = false ∧
    (callTool cfgEx (fun _ => .httpErr 404 none) "get_site_info"
        [("site_id", JValue.str uuidEx)]).1.isError = true ∧
    ∃ m, (callTool cfgEx (fun _ => .httpErr 404 none) "get_site_info"
        [("site_id", JValue.str uuidEx)]).1.envelope.error = some m ∧
      occursStr "not found" m = true :=
  ⟨c3_not_found_both_markers.1 cfgEx ⟨some 404, none, "Request failed with status code 404"⟩ rfl,
   c3_not_found_both_markers.2.2.1 cfgEx (fun _ => .httpErr 404 none) "get_site_info"
     [("site_id", JValue.str uuidEx)] (fun _ => ⟨none, rfl⟩) (by decide)⟩

/-- C4: validation collects every violated field's issues before
returning (any field violation of any field appears in the final issue
list), and the thrown message joins the field-level details as
`"field: reason, field2: reason2"` — shown concretely for a bag where
both UUID fields of the get-domain schema are invalid. -/
theorem c4_collects_all_violations :
    (∀ (os : ObjectSchema) (args : RawArgs) (f : String) (spec : FieldSpec) (v : JValue),
      (f, spec) ∈ os → lookupArg args f = some v →
      ∀ i ∈ checkValue spec.schema [f] v, i ∈ (parseFields os args).1) ∧
    validateInput getDomainSchema [("install_id", JValue.str "x"), ("domain_id", JValue.str "y")] =
      .error "Invalid input: install_id: Invalid UUID format for install_id, domain_id: Invalid UUID format for domain_id" :=
  ⟨checkValue_sub_parseFields, rfl⟩

/-- C4 (witness): both violated fields of the concrete two-bad-field bag
contribute their issue to the collected list. -/
theorem c4_collects_all_violations_witness :
    Issue.mk ["install_id"] "Invalid UUID format for install_id" ∈
      (parseFields getDomainSchema [("install_id", JValue.str "x"), ("domain_id", JValue.str "y")]).1 ∧
    Issue.mk ["domain_id"] "Invalid UUID format for domain_id" ∈
      (parseFields getDomainSchema [("install_id", JValue.str "x"), ("domain_id", JValue.str "y")]).1 :=
  ⟨c4_collects_all_violations.1 getDomainSchema
      [("install_id", JValue.str "x"), ("domain_id", JValue.str "y")]
      "install_id" (reqUuid "install_id").2 (JValue.str "x") (by decide) rfl _ (by decide),
   c4_collects_all_violations.1 getDomainSchema
      [("install_id", JValue.str "x"), ("domain_id", JValue.str "y")]
      "domain_id" (reqUuid "domain_id").2 (JValue.str "y") (by decide) rfl _ (by decide)⟩

/-- C5: the input `{site_id: "not-a-uuid"}` against the get-site schema
fails with exactly the detail `{field: "site_id", reason: "Invalid UUID
format for site_id"}`, and for any backend the handler answers the
validation-error envelope with no backend call made. -/
theorem c5_malformed_uuid_rejected :
    parseObject getSiteInfoSchema [("site_id", JValue.str "not-a-uuid")] =
      .error [⟨["site_id"], "Invalid UUID format for site_id"⟩] ∧
    (∀ (cfg : WPEngineAuthConfig) (backend : BackendCall → BackendOutcome),
      callTool cfg backend "get_site_info" [("site_id", JValue.str "not-a-uuid")] =
        (⟨⟨false, none, none, some "Invalid input: site_id: Invalid UUID format for site_id"⟩,
          true⟩,
         [])) := by
  refine ⟨rfl, ?_⟩
  intro cfg backend
  have hval : validateInput getSiteInfoSchema [("site_id", JValue.str "not-a-uuid")] =
      .error "Invalid input: site_id: Invalid UUID format for site_id" := rfl
  have hrun := runTool_validate_error cfg backend "get_site_info"
    [("site_id", JValue.str "not-a-uuid")] getSiteInfoSchema _ rfl hval
  exact callTool_of_runTool_error cfg backend "get_site_info"
    [("site_id", JValue.str "not-a-uuid")] _ [] hrun

/-- C6: for every schema (with distinct declared field names) and every
bag in which each required field is present with a conforming value and
each optional field is omitted, validation succeeds, and the output
binds each optional field to exactly its declared default — i.e. the
default value when one is declared, and no binding at all otherwise. -/
theorem c6_defaults_filled (os : ObjectSchema) (args : RawArgs)
    (hnd : (os.map Prod.fst).Nodup)
    (hreq : ∀ p ∈ os, p.2.optional = false → reqFieldOkB args p = true)
    (hopt : ∀ p ∈ os, p.2.optional = true → lookupArg args p.1 = none) :
    ∃ out, parseObject os args = .ok out ∧
      ∀ p ∈ os, p.2.optional = true → lookupArg out p.1 = p.2.defaultVal := by
  obtain ⟨h1, h2⟩ := parseFields_defaults os args hnd hreq hopt
  refine ⟨(parseFields os args).2, ?_, h2⟩
  simp [parseObject, h1]

/-- C6 (witness): the legacy create-site schema with only the required
name fills `environment` with its default "production" and omits the
no-default optionals, and the list-accounts schema fills `limit = 25`
and `offset = 0`. -/
theorem c6_defaults_filled_witness :
    (∃ out, parseObject Legacy.createSiteSchema [("name", JValue.str "my-blog")] = .ok out ∧
      lookupArg out "environment" = some (JValue.str "production") ∧
      lookupArg out "php_version" = none ∧
      lookupArg out "wp_version" = none) ∧
    (∃ out, parseObject listAccountsSchema [] = .ok out ∧
      lookupArg out "limit" = some (JValue.num 25) ∧
      lookupArg out "offset" = some (JValue.num 0)) := by
  constructor
  · obtain ⟨out, hok, hall⟩ := c6_defaults_filled Legacy.createSiteSchema
      [("name", JValue.str "my-blog")] (by decide) (by decide) (by decide)
    refine ⟨out, hok, ?_, ?_, ?_⟩
    · exact hall ("environment",
        ⟨.zenum ["production", "staging", "development"], true, some (.str "production")⟩)
        (by decide) rfl
    · exact hall ("php_version", ⟨.zstring [], true, none⟩) (by decide) rfl
    · exact hall ("wp_version", ⟨.zstring [], true, none⟩) (by decide) rfl
  · obtain ⟨out, hok, hall⟩ := c6_defaults_filled listAccountsSchema [] (by decide)
      (by decide) (by decide)
    refine ⟨out, hok, ?_, ?_⟩
    · exact hall ("limit", ⟨.znumber [.int, .nmin 1, .nmax 100], true, some (.num 25)⟩)
        (by decide) rfl
    · exact hall ("offset", ⟨.znumber [.int, .nmin 0], true, some (.num 0)⟩) (by decide) rfl

/-- C7: keys not declared by a schema never cause a validation failure —
adding any undeclared key (with any value) to a bag leaves both the
parse result and `validateInput`'s result unchanged, so a successfully
validating bag keeps validating. -/
theorem c7_unknown_fields_ignored (os : ObjectSchema) (args : RawArgs) (k : String) (v : JValue)
    (h : hasField os k = false) :
    parseObject os ((k, v) :: args) = parseObject os args ∧
    validateInput os ((k, v) :: args) = validateInput os args := by
  have hp := parseFields_extra os args k v h
  constructor
  · unfold parseObject
    rw [hp]
  · unfold validateInput parseObject
    rw [hp]

/-- C7 (witness): an extra key on a valid get-site bag changes nothing. -/
theorem c7_unknown_fields_ignored_witness :
    hasField getSiteSchema "extra_key" = false ∧
    parseObject getSiteSchema [("extra_key", JValue.bool true), ("site_id", JValue.str uuidEx)] =
      parseObject getSiteSchema [("site_id", JValue.str uuidEx)] :=
  ⟨by decide,
   (c7_unknown_fields_ignored getSiteSchema [("site_id", JValue.str uuidEx)] "extra_key"
      (JValue.bool true) (by decide)).1⟩

/-- C8 (counterexample): a base URL that does not start with "https://"
is not a startup error in the served code path: the current
`validateEnvironmentConfig` accepts an environment whose
`WPENGINE_API_BASE_URL` is plain http, and startup proceeds to serving. -/
theorem c8_counterexample :
    validateEnvironmentConfig
      ⟨some "user", some "pw", some "token-id", some "token-pw", none,
       some "http://insecure.example", none⟩ = .ok () ∧
    startupServes
      ⟨some "user", some "pw", some "token-id", some "token-pw", none,
       some "http://insecure.example", none⟩ = true ∧
    strStartsWith "https://" "http://insecure.example" = false :=
  ⟨rfl, by decide, by decide⟩

/-- C8 (amended): a missing (or empty) required credential is a fatal
startup error — `WPENGINE_USERNAME`/`WPENGINE_PASSWORD` through
`validateEnvironmentConfig` and `WPENGINE_AUTH_TOKEN_ID`/
`WPENGINE_AUTH_PASSWORD` through `createWPEngineClient` — and the
process exits instead of serving; the non-HTTPS base-URL check exists
only in the legacy `validateEnvironmentConfig`, which does reject any
configured base URL that does not start with "https://". -/
theorem c8_startup_fatal :
    (∀ env : EnvVars, strFalsy env.wpUsername = true ∨ strFalsy env.wpPassword = true →
      ∃ m, startup env = .exited m) ∧
    (∀ env : EnvVars, strFalsy env.wpAuthTokenId = true ∨ strFalsy env.wpAuthPassword = true →
      ∃ m, startup env = .exited m) ∧
    (∀ env : EnvVars,
      strStartsWith "https://" ((env.wpApiBaseUrl).getD "https://api.wpengineapi.com/v1") = false →
      ∃ m, Legacy.validateEnvironmentConfig env = .error m) := by
  refine ⟨?_, ?_, ?_⟩
  · intro env h
    have hcond : (strFalsy env.wpUsername || strFalsy env.wpPassword) = true := by
      rcases h with h | h <;> simp [h]
    refine ⟨"Environment configuration error: WPENGINE_USERNAME and WPENGINE_PASSWORD environment variables are required. Get these from your WP Engine Portal API Access page.", ?_⟩
    unfold startup validateEnvironmentConfig
    rw [if_pos hcond]
    rfl
  · intro env h
    have hcond : (strFalsy env.wpAuthTokenId || strFalsy env.wpAuthPassword) = true := by
      rcases h with h | h <;> simp [h]
    cases hv : validateEnvironmentConfig env with
    | error m =>
      refine ⟨"Environment configuration error: " ++ m, ?_⟩
      unfold startup
      rw [hv]
    | ok u =>
      refine ⟨"WPENGINE_AUTH_TOKEN_ID and WPENGINE_AUTH_PASSWORD environment variables are required. Get these from your WP Engine Portal API Access page.", ?_⟩
      unfold startup
      rw [hv]
      unfold createWPEngineClient
      rw [if_pos hcond]
  · intro env h
    unfold Legacy.validateEnvironmentConfig
    by_cases ht : strFalsy env.wpApiToken = true
    · refine ⟨"WPENGINE_API_TOKEN environment variable is required", ?_⟩
      rw [if_pos ht]
    · rw [if_neg ht]
      by_cases hlen : ((env.wpApiToken).getD "").length < 10
      · refine ⟨"WPENGINE_API_TOKEN appears to be invalid (too short)", ?_⟩
        rw [if_pos hlen]
      · rw [if_neg hlen]
        have hhttps : (!strStartsWith "https://"
            ((env.wpApiBaseUrl).getD "https://api.wpengineapi.com/v1")) = true := by
          simp [h]
        refine ⟨"WPENGINE_API_BASE_URL must be a valid HTTPS URL", ?_⟩
        rw [if_pos hhttps]

/-- C8 (witness): the amended claim at concrete environments — a missing
username, a missing auth token id, and a legacy http base URL. -/
theorem c8_startup_fatal_witness :
    (∃ m, startup ⟨none, some "pw", some "t", some "q", none, none, none⟩ = .exited m) ∧
    (∃ m, startup ⟨some "u", some "pw", none, some "q", none, none, none⟩ = .exited m) ∧
    (∃ m, Legacy.validateEnvironmentConfig
      ⟨none, none, none, none, some "longtoken123", some "http://x", none⟩ = .error m) :=
  ⟨c8_startup_fatal.1 _ (Or.inl (by decide)),
   c8_startup_fatal.2.1 _ (Or.inl (by decide)),
   c8_startup_fatal.2.2 _ (by decide)⟩

/-- C9: the failure translation never echoes the configured credentials:
the message `handleApiError` produces (in both client variants), and in
fact the whole tool-call result, is independent of the credential values
held in the client configuration — so no credential can flow into the
envelope's error message through the translation path. (Backend-supplied
error bodies are passed through verbatim, as the spec allows.) -/
theorem c9_no_credential_leak :
    (∀ (cfg cfg' : WPEngineAuthConfig) (e : ApiErrorInfo),
      handleApiError cfg e = handleApiError cfg' e) ∧
    (∀ (cfg cfg' : Legacy.AuthConfig) (e : ApiErrorInfo),
      Legacy.handleApiError cfg e = Legacy.handleApiError cfg' e) ∧
    (∀ (cfg cfg' : WPEngineAuthConfig) (backend : BackendCall → BackendOutcome)
      (name : String) (args : RawArgs),
      callTool cfg backend name args = callTool cfg' backend name args) :=
  ⟨fun _ _ _ => rfl, fun _ _ _ => rfl, callTool_cfg_free⟩

theorem upperHex_imp_hexCI (c : Char) (h : isUpperHexDigit c = true) :
    isHexDigitCI c = true := by
  simp only [isUpperHexDigit, Bool.or_eq_true] at h
  simp only [isHexDigitCI, Bool.or_eq_true]
  tauto

theorem uuidGroupsOk_mono (parts : List (List Char))
    (h : uuidGroupsOk isUpperHexDigit parts = true) :
    uuidGroupsOk isHexDigitCI parts = true := by
  unfold uuidGroupsOk at h ⊢
  split at h
  · next a b c d e =>
    simp only [Bool.and_eq_true, List.all_eq_true, and_assoc] at h ⊢
    obtain ⟨h1, h2, h3, h4, h5, ha, hb, hc, hd, he⟩ := h
    exact ⟨h1, h2, h3, h4, h5,
      fun x hx => upperHex_imp_hexCI x (ha x hx),
      fun x hx => upperHex_imp_hexCI x (hb x hx),
      fun x hx => upperHex_imp_hexCI x (hc x hx),
      fun x hx => upperHex_imp_hexCI x (hd x hx),
      fun x hx => upperHex_imp_hexCI x (he x hx)⟩
  · cases h

theorem validate_uuid_single (f : String) (s : String) (h : uuidMatch s = true) :
    validateInput [reqUuid f] [(f, JValue.str s)] = .ok [(f, JValue.str s)] := by
  simp [validateInput, parseObject, parseFields, lookupArg, reqUuid, checkValue,
    runStrCheck, matchRePattern, h]

theorem validate_uuid_pair (f g : String) (s : String) (hfg : f ≠ g)
    (h : uuidMatch s = true) :
    validateInput [reqUuid f, reqUuid g] [(f, JValue.str s), (g, JValue.str s)] =
      .ok [(f, JValue.str s), (g, JValue.str s)] := by
  simp [validateInput, parseObject, parseFields, lookupArg, reqUuid, checkValue,
    runStrCheck, matchRePattern, h, hfg]

/-- C10: the UUID pattern carries the `/i` flag, so identifier fields
match case-insensitively: every UUID-shaped string written with
uppercase hex digits passes the pattern and validates successfully in
each identifier schema — account_id, site_id, install_id, domain_id,
backup_id, user_id and ssh_key_id. -/
theorem c10_uuid_case_insensitive (s : String) (h : upperHexUuidShaped s = true) :
    uuidMatch s = true ∧
    validateInput getAccountSchema [("account_id", JValue.str s)] =
      .ok [("account_id", JValue.str s)] ∧
    validateInput getSiteSchema [("site_id", JValue.str s)] =
      .ok [("site_id", JValue.str s)] ∧
    validateInput getInstallSchema [("install_id", JValue.str s)] =
      .ok [("install_id", JValue.str s)] ∧
    validateInput getDomainSchema [("install_id", JValue.str s), ("domain_id", JValue.str s)] =
      .ok [("install_id", JValue.str s), ("domain_id", JValue.str s)] ∧
    validateInput getBackupSchema [("install_id", JValue.str s), ("backup_id", JValue.str s)] =
      .ok [("install_id", JValue.str s), ("backup_id", JValue.str s)] ∧
    validateInput getAccountUserSchema [("account_id", JValue.str s), ("user_id", JValue.str s)] =
      .ok [("account_id", JValue.str s), ("user_id", JValue.str s)] ∧
    validateInput deleteSshKeySchema [("ssh_key_id", JValue.str s)] =
      .ok [("ssh_key_id", JValue.str s)] := by
  have hm : uuidMatch s = true := uuidGroupsOk_mono (splitDash s.data) h
  exact ⟨hm,
    validate_uuid_single "account_id" s hm,
    validate_uuid_single "site_id" s hm,
    validate_uuid_single "install_id" s hm,
    validate_uuid_pair "install_id" "domain_id" s (by decide) hm,
    validate_uuid_pair "install_id" "backup_id" s (by decide) hm,
    validate_uuid_pair "account_id" "user_id" s (by decide) hm,
    validate_uuid_single "ssh_key_id" s hm⟩

/-- C10 (witness): a concrete all-uppercase UUID passes the pattern and
the get-account schema. -/
theorem c10_uuid_case_insensitive_witness :
    upperHexUuidShaped "0123ABCD-4567-89AB-CDEF-0123456789AB" = true ∧
    uuidMatch "0123ABCD-4567-89AB-CDEF-0123456789AB" = true ∧
    validateInput getAccountSchema
      [("account_id", JValue.str "0123ABCD-4567-89AB-CDEF-0123456789AB")] =
      .ok [("account_id", JValue.str "0123ABCD-4567-89AB-CDEF-0123456789AB")] :=
  ⟨by decide,
   (c10_uuid_case_insensitive "0123ABCD-4567-89AB-CDEF-0123456789AB" (by decide)).1,
   (c10_uuid_case_insensitive "0123ABCD-4567-89AB-CDEF-0123456789AB" (by decide)).2.1⟩
